import Mathlib

/-!
Shallow embedding of the `astropc` planetary position engine
(`astropc/mathutils.py`, `astropc/kepler.py`, `astropc/planets/orbit.py`,
`astropc/planets/pert.py`, `astropc/planets/sphera.py`,
`astropc/planets/planet.py`).

Numbers are modelled over an arbitrary linear ordered field `R` with a floor
function (instantiated at `ℝ` or `ℚ` in the theorems).  The transcendental
library functions (`math.sin`, `math.cos`, ...) that the Python code calls are
collected in a `RealOps` record passed to every embedded function; the real
program corresponds to the instantiation at `ℝ` with `Real.sin`, `Real.cos`,
etc.  Structural properties proved for every `RealOps` instance in particular
hold for that instantiation.

The Kepler solver and the light-time correction are recursive in the source
with no structural decrease, so they are embedded fuel-indexed, returning
`none` when the recursion does not finish within the given number of steps.
-/

/-- Library of the mathematical primitives used by the engine: the members of
Python's `math` module that the source calls. -/
structure RealOps (R : Type) where
  sin : R → R
  cos : R → R
  tan : R → R
  atan : R → R
  atan2 : R → R → R
  asin : R → R
  sqrt : R → R
  pi : R

set_option linter.unusedSectionVars false

variable {R : Type} [LinearOrderedField R] [FloorRing R]

/-- Truncation toward zero, as performed by Python's `math.fmod`/`math.modf`
pair: `trunc x` is `⌈x⌉` for negative `x` and `⌊x⌋` otherwise. -/
def pyTrunc (x : R) : R :=
  if x < 0 then ((⌈x⌉ : ℤ) : R) else ((⌊x⌋ : ℤ) : R)

/-- Python's `math.fmod x r`: remainder with the sign of `x`. -/
def pyFmod (x r : R) : R :=
  x - r * pyTrunc (x / r)

/-- Fractional part keeping the sign of the argument: `math.modf(x)[0]`,
`mathutils.frac`. -/
def frac (x : R) : R :=
  x - pyTrunc x

/-- Source `mathutils.frac360`: `frac(x) * 360`. -/
def frac360 (x : R) : R :=
  frac x * 360

/-- Source `mathutils.to_range`: reduces `x` to the range `[0, r)` via
`fmod`, adding `r` back when the remainder is negative. -/
def toRange (x r : R) : R :=
  let a := pyFmod x r
  if a < 0 then a + r else a

/-- Source `mathutils.reduce_deg`: reduce to `[0, 360)`. -/
def reduceDeg (x : R) : R :=
  toRange x 360

/-- Source `mathutils.reduce_rad`: reduce to `[0, PI2)` where `PI2 = pi * 2`. -/
def reduceRad (ops : RealOps R) (x : R) : R :=
  toRange x (ops.pi * 2)

/-- Python `math.radians`: degrees to radians, `x * pi / 180`. -/
def radians (ops : RealOps R) (x : R) : R :=
  x * ops.pi / 180

/-- Python `math.degrees`: radians to degrees, `x * 180 / pi`. -/
def degreesOf (ops : RealOps R) (x : R) : R :=
  x * 180 / ops.pi

/-- Source `mathutils.polynome t a *args`: Horner evaluation of
`a + a₁·t + a₂·t² + ...`, folding over the reversed coefficient list exactly
as the Python `reduce` does. -/
def polynome (t : R) (a : R) (args : List R) : R :=
  match (a :: args).reverse with
  | [] => a
  | h :: rest => rest.foldl (fun acc b => t * acc + b) h

/-- Source `mathutils.Polar` named tuple. -/
structure Polar (R : Type) where
  phi : R
  rho : R

/-- Source `nutation.Nutation`: nutation in longitude (`dpsi`) and obliquity
(`deps`), arc-degrees. -/
structure Nutation (R : Type) where
  dpsi : R
  deps : R

/-! ## Kepler solver (`astropc/kepler.py`) -/

/-- Source constant `kepler._DELTA`, the convergence tolerance. -/
def keplerDelta : R := 1e-7

/-- Recursion underlying `kepler.eccentric_anomaly`: the current approximation
`ea` is refined by a Newton step until the residual `ea - s·sin ea - m` is
below `_DELTA` in absolute value.  The source recursion has no iteration cap,
so the embedding carries an explicit fuel bound and returns `none` when the
recursion is still running after `fuel` steps. -/
def eccentricAnomalyLoop (ops : RealOps R) (s m : R) : Nat → R → Option R
  | 0, _ => none
  | fuel + 1, ea =>
    let dla := ea - s * ops.sin ea - m
    if |dla| < keplerDelta then some ea
    else eccentricAnomalyLoop ops s m fuel (ea - dla / (1 - s * ops.cos ea))

/-- Source `kepler.eccentric_anomaly s m` (with the default seed `_ea = m`),
run for at most `fuel` Newton steps. -/
def eccentricAnomalyFuel (ops : RealOps R) (s m : R) (fuel : Nat) : Option R :=
  eccentricAnomalyLoop ops s m fuel m

/-- Source `kepler.true_anomaly s ea`:
`2 * atan(sqrt((1 + s) / (1 - s)) * tan(ea / 2))`. -/
def trueAnomaly (ops : RealOps R) (s ea : R) : R :=
  2 * ops.atan (ops.sqrt ((1 + s) / (1 - s)) * ops.tan (ea / 2))

/-- Runtime failures that Python raises while evaluating `true_anomaly` on an
invalid eccentricity: `ZeroDivisionError` for `s = 1` and the `math domain
error` (`ValueError`) that `math.sqrt` raises on a negative argument. -/
inductive PyErr
  | zeroDivision
  | domainError
deriving DecidableEq

/-- Source `kepler.true_anomaly` together with the error behaviour of the
Python runtime: division by `1 - s = 0` raises `ZeroDivisionError`, and
`math.sqrt` of the negative quotient obtained when `s > 1` raises a domain
error; otherwise the value is returned. -/
def trueAnomalyChecked (ops : RealOps R) (s ea : R) : Except PyErr R :=
  if 1 - s = 0 then .error .zeroDivision
  else if (1 + s) / (1 - s) < 0 then .error .domainError
  else .ok (trueAnomaly ops s ea)

/-! ## Osculating orbital elements (`astropc/planets/orbit.py`) -/

/-- Source `timeutils.julian.DAYS_PER_CENT`. -/
def DAYS_PER_CENT : R := 36525

/-- Source `orbit.Terms`: a tuple of polynomial coefficients. -/
structure Terms (R : Type) where
  terms : List R

/-- Source `Terms.assemble t`: `reduce_deg(polynome(t, *terms))`.  The Python
constructor requires at least one coefficient; an empty tuple assembles to the
reduction of the zero polynomial. -/
def Terms.assemble (tm : Terms R) (t : R) : R :=
  match tm.terms with
  | [] => reduceDeg 0
  | a :: rest => reduceDeg (polynome t a rest)

/-- Source `orbit.MLTerms`: mean-longitude terms, a special case with exactly
four coefficients `a b c d` (missing ones default to `0`). -/
structure MLTerms (R : Type) where
  a : R
  b : R
  c : R
  d : R

/-- Source `MLTerms.assemble t`:
`b = frac360(data[1] * t); reduce_deg(data[0] + b + (data[3]*t + data[2])*t*t)`. -/
def MLTerms.assemble (ml : MLTerms R) (t : R) : R :=
  let b := frac360 (ml.b * t)
  reduceDeg (ml.a + b + (ml.d * t + ml.c) * t * t)

/-- Source `orbit.OrbitInstance`: the six elements evaluated at a moment of
time, angles in radians. -/
structure OrbitInstance (R : Type) where
  perihelion : R
  eccentricity : R
  mean_node : R
  inclination : R
  major_semiaxis : R
  mean_anomaly : R
  daily_motion : R

/-- Source `orbit.OElements`: the five coefficient series plus the constant
major semi-axis. -/
structure OElements (R : Type) where
  ml : MLTerms R
  ph : Terms R
  ec : Terms R
  inc : Terms R
  nd : Terms R
  sa : R

/-- Source `OElements.__init__` body computing `_dm`:
`ml.terms[1] * 9.856263e-3 + (ml.terms[2] + ml.terms[3]) / DAYS_PER_CENT`. -/
def OElements.dailyMotion (oe : OElements R) : R :=
  oe.ml.b * 9.856263e-3 + (oe.ml.c + oe.ml.d) / DAYS_PER_CENT

/-- Source `OElements.assemble_mean_anomaly t`:
`reduce_deg(mean_longitude.assemble(t) - perihelion.assemble(t))`, arc-degrees. -/
def OElements.assembleMeanAnomaly (oe : OElements R) (t : R) : R :=
  reduceDeg (oe.ml.assemble t - oe.ph.assemble t)

/-- Source `OElements.instantiate t`: assemble every series at `t` and convert
the angular members to radians. -/
def OElements.instantiate (ops : RealOps R) (oe : OElements R) (t : R) :
    OrbitInstance R :=
  let ph := oe.ph.assemble t
  { perihelion := radians ops ph
    eccentricity := oe.ec.assemble t
    mean_node := radians ops (oe.nd.assemble t)
    inclination := radians ops (oe.inc.assemble t)
    major_semiaxis := oe.sa
    mean_anomaly := radians ops (oe.assembleMeanAnomaly t)
    daily_motion := radians ops oe.dailyMotion }

/-! ## Planet identifiers and static orbital-element tables
(`astropc/planets/ids.py`, the literals of `Planet.for_id` in
`astropc/planets/planet.py`) -/

/-- Source `ids.PlanetId`. -/
inductive PlanetId
  | mercury
  | venus
  | mars
  | jupiter
  | saturn
  | uranus
  | neptune
  | pluto
deriving DecidableEq

/-- Orbital-element tables exactly as written in the `OElements(...)`
literals of `Planet.for_id`. -/
def planetOrbit : PlanetId → OElements R
  | .mercury =>
    { ml := ⟨178.179078, 415.2057519, 3.011e-4, 0⟩
      ph := ⟨[75.899697, 1.5554889, 2.947e-4]⟩
      ec := ⟨[2.0561421e-1, 2.046e-5, -3e-8]⟩
      inc := ⟨[7.002881, 1.8608e-3, -1.83e-5]⟩
      nd := ⟨[47.145944, 1.1852083, 1.739e-4]⟩
      sa := 3.870986e-1 }
  | .venus =>
    { ml := ⟨342.767053, 162.5533664, 3.097e-4, 0⟩
      ph := ⟨[130.163833, 1.4080361, -9.764e-4]⟩
      ec := ⟨[6.82069e-3, -4.774e-5, 9.1e-8]⟩
      inc := ⟨[3.393631, 1.0058e-3, -1e-6]⟩
      nd := ⟨[75.779647, 8.9985e-1, 4.1e-4]⟩
      sa := 7.233316e-1 }
  | .mars =>
    { ml := ⟨293.737334, 53.17137642, 3.107e-4, 0⟩
      ph := ⟨[3.34218203e2, 1.8407584, 1.299e-4, -1.19e-6]⟩
      ec := ⟨[9.33129e-2, 9.2064e-5, -7.7e-8]⟩
      inc := ⟨[1.850333, -6.75e-4, 1.26e-5]⟩
      nd := ⟨[48.786442, 7.709917e-1, -1.4e-6, -5.33e-6]⟩
      sa := 1.5236883 }
  | .jupiter =>
    { ml := ⟨238.049257, 8.434172183, 3.347e-4, -1.65e-6⟩
      ph := ⟨[1.2720972e1, 1.6099617, 1.05627e-3, -3.43e-6]⟩
      ec := ⟨[4.833475e-2, 1.6418e-4, -4.676e-7, -1.7e-9]⟩
      inc := ⟨[1.308736, -5.6961e-3, 3.9e-6]⟩
      nd := ⟨[99.443414, 1.01053, 3.5222e-4, -8.51e-6]⟩
      sa := 5.202561 }
  | .saturn =>
    { ml := ⟨266.564377, 3.398638567, 3.245e-4, -5.8e-6⟩
      ph := ⟨[9.1098214e1, 1.9584158, 8.2636e-4, 4.61e-6]⟩
      ec := ⟨[5.589232e-2, -3.455e-4, -7.28e-7, 7.4e-10]⟩
      inc := ⟨[2.492519, -3.9189e-3, -1.549e-5, 4e-8]⟩
      nd := ⟨[112.790414, 8.731951e-1, -1.5218e-4, -5.31e-6]⟩
      sa := 9.554747 }
  | .uranus =>
    { ml := ⟨244.19747, 1.194065406, 3.16e-4, -6e-7⟩
      ph := ⟨[1.71548692e2, 1.4844328, 2.372e-4, -6.1e-7]⟩
      ec := ⟨[4.63444e-2, -2.658e-5, 7.7e-8]⟩
      inc := ⟨[7.72464e-1, 6.253e-4, 3.95e-5]⟩
      nd := ⟨[73.477111, 4.986678e-1, 1.3117e-3]⟩
      sa := 19.21814 }
  | .neptune =>
    { ml := ⟨84.457994, 6.107942056e-1, 3.205e-4, -6e-7⟩
      ph := ⟨[4.6727364e1, 1.4245744, 3.9082e-4, -6.05e-7]⟩
      ec := ⟨[8.99704e-3, 6.33e-6, -2e-9]⟩
      inc := ⟨[1.779242, -9.5436e-3, -9.1e-6]⟩
      nd := ⟨[130.681389, 1.098935, 2.4987e-4, -4.718e-6]⟩
      sa := 30.10957 }
  | .pluto =>
    { ml := ⟨95.3113544, 3.980332167e-1, 0, 0⟩
      ph := ⟨[224.017]⟩
      ec := ⟨[2.5515e-1]⟩
      inc := ⟨[17.1329]⟩
      nd := ⟨[110.191]⟩
      sa := 39.8151 }

/-! ## Perturbation records and the celestial context
(`astropc/planets/pert.py`, `astropc/planets/sphera.py`) -/

/-- Source `pert.PertRecord`: seven correction scalars, all defaulting to
zero in the dataclass. -/
structure PertRecord (R : Type) where
  dl : R
  dr : R
  dml : R
  ds : R
  dm : R
  da : R
  dhl : R

/-- The record produced by the bare constructor call `PertRecord()`: every
field takes its dataclass default `0.0`. -/
def PertRecord.empty : PertRecord R :=
  ⟨0, 0, 0, 0, 0, 0, 0⟩

/-- Source `sphera.CelestialSphera` instance attributes (the orbit-instance
cache is modelled separately, as explicit state). -/
structure CelestialSphera (R : Type) where
  t : R
  manomSun : R
  sunGeo : Polar R
  obliquity : R
  nut : Nutation R
  apparent : Bool
  auxSun : Fin 6 → R

/-- The auxiliary Sun-related angles computed in `CelestialSphera.__init__`:
`aux[0] = t/5 + 0.1`, `aux[1..3]` are `reduce_rad` of linear functions of `t`,
`aux[4]` and `aux[5]` are combinations of `aux[1..3]`. -/
def mkAuxSun (ops : RealOps R) (t : R) : Fin 6 → R :=
  let a1 := reduceRad ops (4.14473 + 5.29691e1 * t)
  let a2 := reduceRad ops (4.641118 + 2.132991e1 * t)
  let a3 := reduceRad ops (4.250177 + 7.478172 * t)
  ![t / 5 + 0.1, a1, a2, a3, 5 * a2 - 2 * a1, 2 * a1 - 6 * a2 + 3 * a3]

/-- Source `CelestialSphera.__init__`: stores the supplied attributes and
precomputes the auxiliary angles from `t`. -/
def mkCelestialSphera (ops : RealOps R) (t manomSun : R) (sunGeo : Polar R)
    (obliquity : R) (nut : Nutation R) (apparent : Bool) : CelestialSphera R :=
  ⟨t, manomSun, sunGeo, obliquity, nut, apparent, mkAuxSun ops t⟩

/-- Source `CelestialSphera._instantiate_orbit id`:
`Planet.for_id(id).orbit.instantiate(self.t)`. -/
def instantiateOrbit (ops : RealOps R) (t : R) (id : PlanetId) : OrbitInstance R :=
  (planetOrbit id).instantiate ops t

/-- Source `CelestialSphera.get_mean_anomaly id dt` as a pure value: the
cached orbit instance for `id` carries the same value as a fresh
instantiation at the context's `t`, and for `dt ≠ None` the light-time
correction `radians(dt * daily_motion)` is subtracted. -/
def CelestialSphera.getMeanAnomaly (ops : RealOps R) (ctx : CelestialSphera R)
    (id : PlanetId) (dt : Option R) : R :=
  let ma := (instantiateOrbit ops ctx.t id).mean_anomaly
  match dt with
  | none => ma
  | some d => ma - radians ops (d * (planetOrbit (R := R) id).dailyMotion)

/-! ## Per-planet perturbation calculators (`astropc/planets/pert.py`) -/

/-- Source `PertMercury.get_data`. -/
def pertMercury (ops : RealOps R) (ctx : CelestialSphera R) (dt : R) :
    PertRecord R :=
  let me := ctx.getMeanAnomaly ops .mercury (some dt)
  let ve := ctx.getMeanAnomaly ops .venus (some dt)
  let ju := ctx.getMeanAnomaly ops .jupiter (some dt)
  let dl :=
    0.00204 * ops.cos (5 * ve - 2 * me + 0.21328)
      + 0.00103 * ops.cos (2 * ve - me - 2.8046)
      + 0.00091 * ops.cos (2 * ju - me - 0.64582)
      + 0.00078 * ops.cos (5 * ve - 3 * me + 0.17692)
  let dr :=
    7.525e-06 * ops.cos (2 * ju - me + 0.925251)
      + 6.802e-06 * ops.cos (5 * ve - 3 * me - 4.53642)
      + 5.457e-06 * ops.cos (2 * ve - 2 * me - 1.24246)
      + 3.569e-06 * ops.cos (5 * ve - me - 1.35699)
  { PertRecord.empty with dl := dl, dr := dr }

/-- Source `PertVenus.get_data`. -/
def pertVenus (ops : RealOps R) (ctx : CelestialSphera R) (dt : R) :
    PertRecord R :=
  let t := ctx.t
  let ms := ctx.manomSun
  let ve := ctx.getMeanAnomaly ops .venus (some dt)
  let ju := ctx.getMeanAnomaly ops .jupiter (some dt)
  let dl :=
    0.00313 * ops.cos (2 * ms - 2 * ve - 2.587)
      + 0.00198 * ops.cos (3 * ms - 3 * ve + 0.044768)
      + 0.00136 * ops.cos (ms - ve - 2.0788)
      + 0.00096 * ops.cos (3 * ms - 2 * ve - 2.3721)
      + 0.00082 * ops.cos (ju - ve - 3.6318)
  let dr :=
    2.2501e-05 * ops.cos (2 * ms - 2 * ve - 1.01592)
      + 1.9045e-05 * ops.cos (3 * ms - 3 * ve + 1.61577)
      + 6.887e-06 * ops.cos (ju - ve - 2.06106)
      + 5.172e-06 * ops.cos (ms - ve - 0.508065)
      + 3.62e-06 * ops.cos (5 * ms - 4 * ve - 1.81877)
      + 3.283e-06 * ops.cos (4 * ms - 4 * ve + 1.10851)
      + 3.074e-06 * ops.cos (2 * ju - 2 * ve - 0.962846)
  let dm := radians ops (7.7e-4 * ops.sin (4.1406 + t * 2.6227))
  { PertRecord.empty with dl := dl, dr := dr, dml := dm, dm := dm }

/-- Source `PertMars.get_data`. -/
def pertMars (ops : RealOps R) (ctx : CelestialSphera R) (dt : R) :
    PertRecord R :=
  let ve := ctx.getMeanAnomaly ops .venus (some dt)
  let ju := ctx.getMeanAnomaly ops .jupiter (some dt)
  let ms := ctx.manomSun
  let ma := ctx.getMeanAnomaly ops .mars (some dt)
  let a := 3 * ju - 8 * ma + 4 * ms
  let sa := ops.sin a
  let ca := ops.cos a
  let dl :=
    0.00705 * ops.cos (ju - ma - 0.85448)
      + 0.00607 * ops.cos (2 * ju - ma - 3.2873)
      + 0.00445 * ops.cos (2 * ju - 2 * ma - 3.3492)
      + 0.00388 * ops.cos (ms - 2 * ma + 0.35771)
      + 0.00238 * ops.cos (ms - ma + 0.61256)
      + 0.00204 * ops.cos (2 * ms - 3 * ma + 2.7688)
      + 0.00177 * ops.cos (3 * ma - ve - 1.0053)
      + 0.00136 * ops.cos (2 * ms - 4 * ma + 2.6894)
      + 0.00104 * ops.cos (ju + 0.30749)
  let dr :=
    5.3227e-05 * ops.cos (ju - ma + 0.717864)
      + 5.0989e-05 * ops.cos (2 * ju - 2 * ma - 1.77997)
      + 3.8278e-05 * ops.cos (2 * ju - ma - 1.71617)
      + 1.5996e-05 * ops.cos (ms - ma - 0.969618)
      + 1.4764e-05 * ops.cos (2 * ms - 3 * ma + 1.19768)
      + 8.966e-06 * ops.cos (ju - 2 * ma + 0.761225)
      + 7.914e-06 * ops.cos (3 * ju - 2 * ma - 2.43887)
      + 7.004e-06 * ops.cos (2 * ju - 3 * ma - 1.79573)
      + 6.62e-06 * ops.cos (ms - 2 * ma + 1.97575)
      + 4.93e-06 * ops.cos (3 * ju - 3 * ma - 1.33069)
      + 4.693e-06 * ops.cos (3 * ms - 5 * ma + 3.32665)
      + 4.571e-06 * ops.cos (2 * ms - 4 * ma + 4.27086)
      + 4.409e-06 * ops.cos (3 * ju - ma - 2.02158)
  let dm := radians ops (-(0.01133 * sa + 0.00933 * ca))
  { PertRecord.empty with dl := dl, dr := dr, dml := dm, dm := dm }

/-- Source `PertJupiter.get_data`. -/
def pertJupiter (ops : RealOps R) (ctx : CelestialSphera R) (_dt : R) :
    PertRecord R :=
  let s := (instantiateOrbit ops ctx.t .jupiter).eccentricity
  let x1 := ctx.auxSun 0
  let x2 := ctx.auxSun 1
  let x3 := ctx.auxSun 2
  let x5 := ctx.auxSun 4
  let x6 := ctx.auxSun 5
  let x7 := x3 - x2
  let sx3 := ops.sin x3
  let cx3 := ops.cos x3
  let s2x3 := ops.sin (2 * x3)
  let c2x3 := ops.cos (2 * x3)
  let sx5 := ops.sin x5
  let cx5 := ops.cos x5
  let s2x5 := ops.sin (2 * x5)
  let sx6 := ops.sin x6
  let sx7 := ops.sin x7
  let cx7 := ops.cos x7
  let s2x7 := ops.sin (2 * x7)
  let c2x7 := ops.cos (2 * x7)
  let s3x7 := ops.sin (3 * x7)
  let c3x7 := ops.cos (3 * x7)
  let s4x7 := ops.sin (4 * x7)
  let c4x7 := ops.cos (4 * x7)
  let c5x7 := ops.cos (5 * x7)
  let dml :=
    (3.31364e-1 - (1.0281e-2 + 4.692e-3 * x1) * x1) * sx5
      + (3.228e-3 - (6.4436e-2 - 2.075e-3 * x1) * x1) * cx5
      - (3.083e-3 + (2.75e-4 - 4.89e-4 * x1) * x1) * s2x5
      + 2.472e-3 * sx6
      + 1.3619e-2 * sx7
      + 1.8472e-2 * s2x7
      + 6.717e-3 * s3x7
      + 2.775e-3 * s4x7
      + 6.417e-3 * s2x7 * sx3
      + (7.275e-3 - 1.253e-3 * x1) * sx7 * sx3
      + 2.439e-3 * s3x7 * sx3
      - (3.5681e-2 + 1.208e-3 * x1) * sx7 * cx3
      - 3.767e-3 * c2x7 * sx3
      - (3.3839e-2 + 1.125e-3 * x1) * cx7 * sx3
      - 4.261e-3 * s2x7 * cx3
      + (1.161e-3 * x1 - 6.333e-3) * cx7 * cx3
      + 2.178e-3 * cx3
      - 6.675e-3 * c2x7 * cx3
      - 2.664e-3 * c3x7 * cx3
      - 2.572e-3 * sx7 * s2x3
      - 3.567e-3 * s2x7 * s2x3
      + 2.094e-3 * cx7 * c2x3
      + 3.342e-3 * c2x7 * c2x3
  let dml := radians ops dml
  let ds :=
    ((3606 + (130 - 43 * x1) * x1) * sx5
      + (1289 - 580 * x1) * cx5
      - 6764 * sx7 * sx3
      - 1110 * s2x7 * sx3
      - 224 * s3x7 * sx3
      - 204 * sx3
      + (1284 + 116 * x1) * cx7 * sx3
      + 188 * c2x7 * sx3
      + (1460 + 130 * x1) * sx7 * cx3
      + 224 * s2x7 * cx3
      - 817 * cx3
      + 6074 * cx3 * cx7
      + 992 * c2x7 * cx3
      + 508 * c3x7 * cx3
      + 230 * c4x7 * cx3
      + 108 * c5x7 * cx3
      - (956 + 73 * x1) * sx7 * s2x3
      + 448 * s2x7 * s2x3
      + 137 * s3x7 * s2x3
      + (108 * x1 - 997) * cx7 * s2x3
      + 480 * c2x7 * s2x3
      + 148 * c3x7 * s2x3
      + (99 * x1 - 956) * sx7 * c2x3
      + 490 * s2x7 * c2x3
      + 158 * s3x7 * c2x3
      + 179 * c2x3
      + (1024 + 75 * x1) * cx7 * c2x3
      - 437 * c2x7 * c2x3
      - 132 * c3x7 * c2x3) * 1e-7
  let dp :=
    (7.192e-3 - 3.147e-3 * x1) * sx5
      - 4.344e-3 * sx3
      + (x1 * (1.97e-4 * x1 - 6.75e-4) - 2.0428e-2) * cx5
      + 3.4036e-2 * cx7 * sx3
      + (7.269e-3 + 6.72e-4 * x1) * sx7 * sx3
      + 5.614e-3 * c2x7 * sx3
      + 2.964e-3 * c3x7 * sx3
      + 3.7761e-2 * sx7 * cx3
      + 6.158e-3 * s2x7 * cx3
      - 6.603e-3 * cx7 * cx3
      - 5.356e-3 * sx7 * s2x3
      + 2.722e-3 * s2x7 * s2x3
      + 4.483e-3 * cx7 * s2x3
      - 2.642e-3 * c2x7 * s2x3
      + 4.403e-3 * sx7 * c2x3
      - 2.536e-3 * s2x7 * c2x3
      + 5.547e-3 * cx7 * c2x3
      - 2.689e-3 * c2x7 * c2x3
  let dm := dml - radians ops dp / s
  let da :=
    (205 * cx7
      - 263 * cx5
      + 693 * c2x7
      + 312 * c3x7
      + 147 * c4x7
      + 299 * sx7 * sx3
      + 181 * c2x7 * sx3
      + 204 * s2x7 * cx3
      + 111 * s3x7 * cx3
      - 337 * cx7 * cx3
      - 111 * c2x7 * cx3) * 1e-6
  { PertRecord.empty with dml := dml, ds := ds, dm := dm, da := da }

/-- Source `PertSaturn.get_data`. -/
def pertSaturn (ops : RealOps R) (ctx : CelestialSphera R) (_dt : R) :
    PertRecord R :=
  let s := (instantiateOrbit ops ctx.t .saturn).eccentricity
  let x1 := ctx.auxSun 0
  let x2 := ctx.auxSun 1
  let x3 := ctx.auxSun 2
  let x4 := ctx.auxSun 3
  let x5 := ctx.auxSun 4
  let x6 := ctx.auxSun 5
  let x7 := x3 - x2
  let x8 := x4 - x3
  let sx3 := ops.sin x3
  let cx3 := ops.cos x3
  let s2x3 := ops.sin (2 * x3)
  let c2x3 := ops.cos (2 * x3)
  let sx5 := ops.sin x5
  let cx5 := ops.cos x5
  let s2x5 := ops.sin (2 * x5)
  let sx6 := ops.sin x6
  let sx7 := ops.sin x7
  let cx7 := ops.cos x7
  let s2x7 := ops.sin (2 * x7)
  let c2x7 := ops.cos (2 * x7)
  let s3x7 := ops.sin (3 * x7)
  let c3x7 := ops.cos (3 * x7)
  let s4x7 := ops.sin (4 * x7)
  let c4x7 := ops.cos (4 * x7)
  let c5x7 := ops.cos (5 * x7)
  let s3x3 := ops.sin (3 * x3)
  let c3x3 := ops.cos (3 * x3)
  let s4x3 := ops.sin (4 * x3)
  let c4x3 := ops.cos (4 * x3)
  let c2x5 := ops.cos (2 * x5)
  let s5x7 := ops.sin (5 * x7)
  let s2x8 := ops.sin (2 * x8)
  let c2x8 := ops.cos (2 * x8)
  let s3x8 := ops.sin (3 * x8)
  let c3x8 := ops.cos (3 * x8)
  let dml :=
    7.581e-3 * s2x5
      - 7.986e-3 * sx6
      - 1.48811e-1 * sx7
      - 4.0786e-2 * s2x7
      - (8.14181e-1 - (1.815e-2 - 1.6714e-2 * x1) * x1) * sx5
      - (1.0497e-2 - (1.60906e-1 - 4.1e-3 * x1) * x1) * cx5
      - 1.5208e-2 * s3x7
      - 6.339e-3 * s4x7
      - 6.244e-3 * sx3
      - 1.65e-2 * s2x7 * sx3
      + (8.931e-3 + 2.728e-3 * x1) * sx7 * sx3
      - 5.775e-3 * s3x7 * sx3
      + (8.1344e-2 + 3.206e-3 * x1) * cx7 * sx3
      + 1.5019e-2 * c2x7 * sx3
      + (8.5581e-2 + 2.494e-3 * x1) * sx7 * cx3
      + 1.4394e-2 * c2x7 * cx3
      + (2.5328e-2 - 3.117e-3 * x1) * cx7 * cx3
      + 6.319e-3 * c3x7 * cx3
      + 6.369e-3 * sx7 * s2x3
      + 9.156e-3 * s2x7 * s2x3
      + 7.525e-3 * s3x8 * s2x3
      - 5.236e-3 * cx7 * c2x3
      - 7.736e-3 * c2x7 * c2x3
      - 7.528e-3 * c3x8 * c2x3
  let dml := radians ops dml
  let ds :=
    ((-7927 + (2548 + 91 * x1) * x1) * sx5
      + (13381 + (1226 - 253 * x1) * x1) * cx5
      + (248 - 121 * x1) * s2x5
      - (305 + 91 * x1) * c2x5
      + 412 * s2x7
      + 12415 * sx3
      + (390 - 617 * x1) * sx7 * sx3
      + (165 - 204 * x1) * s2x7 * sx3
      + 26599 * cx7 * sx3
      - 4687 * c2x7 * sx3
      - 1870 * c3x7 * sx3
      - 821 * c4x7 * sx3
      - 377 * c5x7 * sx3
      + 497 * c2x8 * sx3
      + (163 - 611 * x1) * cx3
      - 12696 * sx7 * cx3
      - 4200 * s2x7 * cx3
      - 1503 * s3x7 * cx3
      - 619 * s4x7 * cx3
      - 268 * s5x7 * cx3
      - (282 + 1306 * x1) * cx7 * cx3
      + (-86 + 230 * x1) * c2x7 * cx3
      + 461 * s2x8 * cx3
      - 350 * s2x3
      + (2211 - 286 * x1) * sx7 * s2x3
      - 2208 * s2x7 * s2x3
      - 568 * s3x7 * s2x3
      - 346 * s4x7 * s2x3
      - (2780 + 222 * x1) * cx7 * s2x3
      + (2022 + 263 * x1) * c2x7 * s2x3
      + 248 * c3x7 * s2x3
      + 242 * s3x8 * s2x3
      + 467 * c3x8 * s2x3
      - 490 * c2x3
      - (2842 + 279 * x1) * sx7 * c2x3
      + (128 + 226 * x1) * s2x7 * c2x3
      + 224 * s3x7 * c2x3
      + (-1594 + 282 * x1) * cx7 * c2x3
      + (2162 - 207 * x1) * c2x7 * c2x3
      + 561 * c3x7 * c2x3
      + 343 * c4x7 * c2x3
      + 469 * s3x8 * c2x3
      - 242 * c3x8 * c2x3
      - 205 * sx7 * s3x3
      + 262 * s3x7 * s3x3
      + 208 * cx7 * c3x3
      - 271 * c3x7 * c3x3
      - 382 * c3x7 * s4x3
      - 376 * s3x7 * c4x3) * 1e-7
  let dp :=
    (7.7108e-2 + (7.186e-3 - 1.533e-3 * x1) * x1) * sx5
      - 7.075e-3 * sx7
      + (4.5803e-2 - (1.4766e-2 + 5.36e-4 * x1) * x1) * cx5
      - 7.2586e-2 * cx3
      - 7.5825e-2 * sx7 * sx3
      - 2.4839e-2 * s2x7 * sx3
      - 8.631e-3 * s3x7 * sx3
      - 1.50383e-1 * cx7 * cx3
      + 2.6897e-2 * c2x7 * cx3
      + 1.0053e-2 * c3x7 * cx3
      - (1.3597e-2 + 1.719e-3 * x1) * sx7 * s2x3
      + 1.1981e-2 * s2x7 * c2x3
      - (7.742e-3 - 1.517e-3 * x1) * cx7 * s2x3
      + (1.3586e-2 - 1.375e-3 * x1) * c2x7 * c2x3
      - (1.3667e-2 - 1.239e-3 * x1) * sx7 * c2x3
      + (1.4861e-2 + 1.136e-3 * x1) * cx7 * c2x3
      - (1.3064e-2 + 1.628e-3 * x1) * c2x7 * c2x3
  let dm := dml - radians ops dp / s
  let da :=
    (572 * sx5
      - 1590 * s2x7 * cx3
      + 2933 * cx5
      - 647 * s3x7 * cx3
      + 33629 * cx7
      - 344 * s4x7 * cx3
      - 3081 * c2x7
      + 2885 * cx7 * cx3
      - 1423 * c3x7
      + (2172 + 102 * x1) * c2x7 * cx3
      - 671 * c4x7
      + 296 * c3x7 * cx3
      - 320 * c5x7
      - 267 * s2x7 * s2x3
      + 1098 * sx3
      - 778 * cx7 * s2x3
      - 2812 * sx7 * sx3
      + 495 * c2x7 * s2x3
      + 688 * s2x7 * sx3
      + 250 * c3x7 * s2x3
      - 393 * s3x7 * sx3
      - 856 * sx7 * c2x3
      - 228 * s4x7 * sx3
      + 441 * s2x7 * c2x3
      + 2138 * cx7 * sx3
      + 296 * c2x7 * c2x3
      - 999 * c2x7 * sx3
      + 211 * c3x7 * c2x3
      - 642 * c3x7 * sx3
      - 427 * sx7 * s3x3
      - 325 * c4x7 * sx3
      + 398 * s3x7 * s3x3
      - 890 * cx3
      + 344 * cx7 * c3x3
      + 2206 * sx7 * cx3
      - 427 * c3x7 * c3x3) * 1e-6
  let dhl :=
    7.47e-4 * cx7 * sx3
      + 1.069e-3 * cx7 * cx3
      + 2.108e-3 * s2x7 * s2x3
      + 1.261e-3 * c2x7 * s2x3
      + 1.236e-3 * s2x7 * c2x3
      - 2.075e-3 * c2x7 * c2x3
  let dhl := radians ops dhl
  { PertRecord.empty with dml := dml, ds := ds, dm := dm, da := da, dhl := dhl }

/-- Source `PertUranus.get_data`. -/
def pertUranus (ops : RealOps R) (ctx : CelestialSphera R) (_dt : R) :
    PertRecord R :=
  let t := ctx.t
  let s := (instantiateOrbit ops ctx.t .uranus).eccentricity
  let x1 := ctx.auxSun 0
  let x2 := ctx.auxSun 1
  let x3 := ctx.auxSun 2
  let x4 := ctx.auxSun 3
  let x6 := ctx.auxSun 5
  let x8 := reduceRad ops (1.46205 + 3.81337 * t)
  let x9 := 2 * x8 - x4
  let x10 := x4 - x2
  let x11 := x4 - x3
  let x12 := x8 - x4
  let sx9 := ops.sin x9
  let cx9 := ops.cos x9
  let s2x9 := ops.sin (2 * x9)
  let c2x9 := ops.cos (2 * x9)
  let dml :=
    (8.64319e-1 - 1.583e-3 * x1) * sx9
      + (8.2222e-2 - 6.833e-3 * x1) * cx9
      + 3.6017e-2 * s2x9
      - 3.019e-3 * c2x9
      + 8.122e-3 * ops.sin x6
  let dml := radians ops dml
  let dp := 1.20303e-1 * sx9 + 6.197e-3 * s2x9 + (1.9472e-2 - 9.47e-4 * x1) * cx9
  let dm := dml - radians ops dp / s
  let ds := ((163 * x1 - 3349) * sx9 + 20981 * cx9 + 1311 * c2x9) * 1e-7
  let da := -3.825e-3 * cx9
  let dl :=
    (1.0122e-2 - 9.88e-4 * x1) * ops.sin (x4 + x11)
      + (-3.8581e-2 + (2.031e-3 - 1.91e-3 * x1) * x1) * ops.cos (x4 + x11)
      + (3.4964e-2 - (1.038e-3 - 8.68e-4 * x1) * x1) * ops.cos (2 * x4 + x11)
      + 5.594e-3 * ops.sin (x4 + 3 * x12)
      - 1.4808e-2 * ops.sin x10
      - 5.794e-3 * ops.sin x11
      + 2.347e-3 * ops.cos x11
      + 9.872e-3 * ops.sin x12
      + 8.803e-3 * ops.sin (2 * x12)
      - 4.308e-3 * ops.sin (3 * x12)
  let sx11 := ops.sin x11
  let cx11 := ops.cos x11
  let sx4 := ops.sin x4
  let cx4 := ops.cos x4
  let s2x4 := ops.sin (2 * x4)
  let c2x4 := ops.cos (2 * x4)
  let dhl :=
    (4.58e-4 * sx11 - 6.42e-4 * cx11 - 5.17e-4 * ops.cos (4 * x12)) * sx4
      - (3.47e-4 * sx11 + 8.53e-4 * cx11 + 5.17e-4 * ops.sin (4 * x11)) * cx4
      + 4.03e-4 * (ops.cos (2 * x12) * s2x4 + ops.sin (2 * x12) * c2x4)
  let dhl := radians ops dhl
  let dr :=
    (-25948
      + 4985 * ops.cos x10
      - 1230 * cx4
      + 3354 * ops.cos x11
      + 904 * ops.cos (2 * x12)
      + 894 * (ops.cos x12 - ops.cos (3 * x12))
      + (5795 * cx4 - 1165 * sx4 + 1388 * c2x4) * sx11
      + (1351 * cx4 + 5702 * sx4 + 1388 * s2x4) * ops.cos x11) * 1e-6
  ⟨dl, dr, dml, ds, dm, da, dhl⟩

/-- Source `PertNeptune.get_data`. -/
def pertNeptune (ops : RealOps R) (ctx : CelestialSphera R) (_dt : R) :
    PertRecord R :=
  let t := ctx.t
  let s := (instantiateOrbit ops ctx.t .neptune).eccentricity
  let x1 := ctx.auxSun 0
  let x2 := ctx.auxSun 1
  let x3 := ctx.auxSun 2
  let x4 := ctx.auxSun 3
  let x8 := reduceRad ops (1.46205 + 3.81337 * t)
  let x9 := 2 * x8 - x4
  let x10 := x8 - x2
  let x11 := x8 - x3
  let x12 := x8 - x4
  let sx9 := ops.sin x9
  let cx9 := ops.cos x9
  let s2x9 := ops.sin (2 * x9)
  let c2x9 := ops.cos (2 * x9)
  let dml :=
    (1.089e-3 * x1 - 5.89833e-1) * sx9
      + (4.658e-3 * x1 - 5.6094e-2) * cx9
      - 2.4286e-2 * s2x9
  let dml := radians ops dml
  let dp := 2.4039e-2 * sx9 - 2.5303e-2 * cx9 + 6.206e-3 * s2x9 - 5.992e-3 * c2x9
  let dm := dml - radians ops dp / s
  let ds := (4389 * sx9 + 1129 * s2x9 + 4262 * cx9 + 1089 * c2x9) * 1e-7
  let da := (8189 * cx9 - 817 * sx9 + 781 * c2x9) * 1e-6
  let s2x12 := ops.sin (2 * x12)
  let c2x12 := ops.cos (2 * x12)
  let sx8 := ops.sin x8
  let cx8 := ops.cos x8
  let dl :=
    -9.556e-3 * ops.sin x10
      - 5.178e-3 * ops.sin x11
      + 2.572e-3 * s2x12
      - 2.972e-3 * c2x12 * sx8
      - 2.833e-3 * s2x12 * cx8
  let dhl := 3.36e-4 * c2x12 * sx8 + 3.64e-4 * s2x12 * cx8
  let dhl := radians ops dhl
  let dr :=
    (-40596 + 4992 * ops.cos x10 + 2744 * ops.cos x11 + 2044 * ops.cos x12
      + 1051 * c2x12) * 1e-6
  ⟨dl, dr, dml, ds, dm, da, dhl⟩

/-- Source `PertPluto.get_data`: returns the empty `PertRecord`. -/
def pertPluto (_ctx : CelestialSphera R) (_dt : R) : PertRecord R :=
  PertRecord.empty

/-- Dispatch of `PertCalculator.get_data` over the per-planet subclasses bound
by `Planet.for_id`. -/
def pertGetData (ops : RealOps R) : PlanetId → CelestialSphera R → R → PertRecord R
  | .mercury => pertMercury ops
  | .venus => pertVenus ops
  | .mars => pertMars ops
  | .jupiter => pertJupiter ops
  | .saturn => pertSaturn ops
  | .uranus => pertUranus ops
  | .neptune => pertNeptune ops
  | .pluto => pertPluto

/-! ## Planet model (`astropc/planets/planet.py`) -/

/-- Source `planet.HelioRecord` named tuple. -/
structure HelioRecord (R : Type) where
  ll : R
  rpd : R
  lpd : R
  spsi : R
  cpsi : R
  rho : R

/-- Source `planet.EclipticPosition` dataclass. -/
structure EclipticPosition (R : Type) where
  lmbda : R
  beta : R
  delta : R

/-- Source `planet.Planet` attributes.  The perturbation calculator bound by
`Planet.for_id` is the per-planet `get_data` pure function. -/
structure Planet (R : Type) where
  id : PlanetId
  name : String
  is_inner : Bool
  orbit : OElements R
  pertCalc : CelestialSphera R → R → PertRecord R

/-- Display names bound in `Planet.for_id`. -/
def planetName : PlanetId → String
  | .mercury => "Mercury"
  | .venus => "Venus"
  | .mars => "Mars"
  | .jupiter => "Jupiter"
  | .saturn => "Saturn"
  | .uranus => "Uranus"
  | .neptune => "Neptune"
  | .pluto => "Pluto"

/-- Inner-planet flags bound in `Planet.for_id`. -/
def planetIsInner : PlanetId → Bool
  | .mercury => true
  | .venus => true
  | _ => false

/-- Source `Planet.for_id`: the per-identifier planet definition (name,
inner flag, orbital elements, perturbation calculator). -/
def forId (ops : RealOps R) (id : PlanetId) : Planet R :=
  ⟨id, planetName id, planetIsInner id, planetOrbit id, pertGetData ops id⟩

/-- Source `Planet._calculate_heliocentric oi ma re lg pert`.  The body calls
the Kepler solver, which the embedding runs with `kf` steps of fuel: the
result is `none` exactly when the solver recursion does not finish.  (The
source assigns `psi` three times; only the last assignment,
`asin(spsi) + pert.dhl`, survives, which is what the embedding keeps.) -/
def calculateHeliocentric (ops : RealOps R) (kf : Nat) (oi : OrbitInstance R)
    (ma re lg : R) (pert : PertRecord R) : Option (HelioRecord R) :=
  let s := oi.eccentricity + pert.ds
  let ma := reduceRad ops (ma + pert.dm)
  match eccentricAnomalyFuel ops s ma kf with
  | none => none
  | some ea =>
    let nu := trueAnomaly ops s ea
    let rp := (oi.major_semiaxis + pert.da) * (1 - s * s) / (1 + s * ops.cos nu)
      + pert.dr
    let lp := nu + oi.perihelion + (pert.dml - pert.dm)
    let lo := lp - oi.mean_node
    let sin_lo := ops.sin lo
    let spsi := sin_lo * ops.sin oi.inclination
    let y := sin_lo * ops.cos oi.inclination
    let psi := ops.asin spsi + pert.dhl
    let lpd := ops.atan2 y (ops.cos lo) + oi.mean_node + radians ops pert.dl
    let cpsi := ops.cos psi
    let ll := lpd - lg
    let rho := ops.sqrt (re * re + rp * rp - 2 * re * rp * cpsi * ops.cos ll)
    some ⟨ll, rp * cpsi, lpd, ops.sin psi, cpsi, rho⟩

/-- Source `Planet._get_corrected_helio ctx oi lg rg dt rho`.  The source
recursion re-enters itself whenever `dt == 0`, so it is embedded with a fuel
argument; `none` means the recursion (or an inner Kepler solve) did not
finish within the allotted fuel. -/
def getCorrectedHelio (ops : RealOps R) (kf : Nat) (pla : Planet R)
    (ctx : CelestialSphera R) (oi : OrbitInstance R) (lg rg : R) :
    Nat → R → R → Option (HelioRecord R)
  | 0, _, _ => none
  | fuel + 1, dt, rho =>
    let ma := ctx.getMeanAnomaly ops pla.id (some dt)
    let pert := pla.pertCalc ctx dt
    match calculateHeliocentric ops kf oi ma rg lg pert with
    | none => none
    | some h =>
      if dt = 0 then
        getCorrectedHelio ops kf pla ctx oi lg rg fuel (h.rho * 5.775518e-3) h.rho
      else some ⟨h.ll, h.rpd, h.lpd, h.spsi, h.cpsi, rho⟩

/-- Source `Planet.geocentric_position ctx`. -/
def geocentricPosition (ops : RealOps R) (kf fuel : Nat) (pla : Planet R)
    (ctx : CelestialSphera R) : Option (EclipticPosition R) :=
  let sg := ctx.sunGeo
  let lg := radians ops sg.phi + ops.pi
  let rsn := sg.rho
  let oi := pla.orbit.instantiate ops ctx.t
  match getCorrectedHelio ops kf pla ctx oi lg rsn fuel 0 0 with
  | none => none
  | some h =>
    let sll := ops.sin h.ll
    let cll := ops.cos h.ll
    let lam :=
      if pla.is_inner then
        ops.atan2 (-1 * h.rpd * sll) (rsn - h.rpd * cll) + lg + ops.pi
      else ops.atan2 (rsn * sll) (h.rpd - rsn * cll) + h.lpd
    let lam := reduceRad ops lam
    let bet := ops.atan (h.rpd * h.spsi * ops.sin (lam - h.lpd)
      / (h.cpsi * rsn * sll))
    let lb :=
      if ctx.apparent then
        let lam := lam + radians ops ctx.nut.dpsi
        let a := lg - lam
        let lam := lam - 9.9387e-5 * ops.cos a / ops.cos bet
        let lam := reduceRad ops lam
        let bet := bet - 9.9387e-5 * ops.sin a * ops.sin bet
        (lam, bet)
      else (lam, bet)
    some ⟨degreesOf ops lb.1, degreesOf ops lb.2, h.rho⟩

/-! ## The orbit-instance cache of the context
(`functools.cache` on `CelestialSphera.get_orbit_instance`) -/

/-- State of the memoization cache attached to `get_orbit_instance`. -/
def Cache (R : Type) : Type :=
  PlanetId → Option (OrbitInstance R)

/-- The cache of a freshly created context: no entries. -/
def emptyCache : Cache R :=
  fun _ => none

/-- Source `CelestialSphera.get_orbit_instance id` with its `@cache`
decorator made explicit: on a hit the cached instance is returned and the
state is unchanged; on a miss `_instantiate_orbit` runs (the third component
counts its invocations) and the result is stored. -/
def getOrbitInstanceC (ops : RealOps R) (t : R) (st : Cache R) (id : PlanetId) :
    OrbitInstance R × Cache R × Nat :=
  match st id with
  | some oi => (oi, st, 0)
  | none =>
    let oi := instantiateOrbit ops t id
    (oi, fun j => if j = id then some oi else st j, 1)

/-- Cache entries are values of `_instantiate_orbit` at the context's `t`. -/
def cacheValid (ops : RealOps R) (t : R) (st : Cache R) : Prop :=
  ∀ j oi, st j = some oi → oi = instantiateOrbit ops t j

/-- Variant of `geocentric_position` written from the claim's words: the
direct `self.orbit.instantiate(ctx.t)` of the source is replaced by the
context's cached lookup `ctx.get_orbit_instance(self.id)`; everything else is
unchanged. -/
def geocentricPositionViaCache (ops : RealOps R) (kf fuel : Nat)
    (pla : Planet R) (ctx : CelestialSphera R) (st : Cache R) :
    Option (EclipticPosition R) :=
  let sg := ctx.sunGeo
  let lg := radians ops sg.phi + ops.pi
  let rsn := sg.rho
  let oi := (getOrbitInstanceC ops ctx.t st pla.id).1
  match getCorrectedHelio ops kf pla ctx oi lg rsn fuel 0 0 with
  | none => none
  | some h =>
    let sll := ops.sin h.ll
    let cll := ops.cos h.ll
    let lam :=
      if pla.is_inner then
        ops.atan2 (-1 * h.rpd * sll) (rsn - h.rpd * cll) + lg + ops.pi
      else ops.atan2 (rsn * sll) (h.rpd - rsn * cll) + h.lpd
    let lam := reduceRad ops lam
    let bet := ops.atan (h.rpd * h.spsi * ops.sin (lam - h.lpd)
      / (h.cpsi * rsn * sll))
    let lb :=
      if ctx.apparent then
        let lam := lam + radians ops ctx.nut.dpsi
        let a := lg - lam
        let lam := lam - 9.9387e-5 * ops.cos a / ops.cos bet
        let lam := reduceRad ops lam
        let bet := bet - 9.9387e-5 * ops.sin a * ops.sin bet
        (lam, bet)
      else (lam, bet)
    some ⟨degreesOf ops lb.1, degreesOf ops lb.2, h.rho⟩

/-! ## Concrete instantiations used by witnesses -/

/-- A `RealOps ℚ` stub for exercising the structural theorems on concrete
rational inputs: all transcendental slots return `0` except `sqrt`, which
returns `3`, and `pi = 0`. -/
def qOps0 : RealOps ℚ :=
  ⟨fun _ => 0, fun _ => 0, fun _ => 0, fun _ => 0, fun _ _ => 0, fun _ => 0,
    fun _ => 3, 0⟩

/-- A `RealOps ℚ` stub with `pi = 4`, for witnessing statements that need a
positive `pi`. -/
def qOpsPi4 : RealOps ℚ :=
  ⟨fun _ => 0, fun _ => 0, fun _ => 0, fun _ => 0, fun _ _ => 0, fun _ => 0,
    fun _ => 0, 4⟩

/-- A math library under which the Newton iteration of the Kepler solver
never meets its tolerance: with `sin = id` and `cos` constantly `2`, at
`s = 1, m = 1` every iterate has residual `-1`. -/
def pathologicalOps : RealOps ℚ :=
  ⟨id, fun _ => 2, fun _ => 0, fun _ => 0, fun _ _ => 0, fun _ => 0,
    fun _ => 0, 0⟩

/-- A concrete context at `t = 0` (all collaborator inputs zero, geometric
mode) over `ℚ`, built by the embedded `CelestialSphera.__init__`. -/
def qSphera0 : CelestialSphera ℚ :=
  mkCelestialSphera qOps0 0 0 ⟨0, 0⟩ 0 ⟨0, 0⟩ false

/-- An all-zero orbit instance, used as a concrete input. -/
def zeroOi : OrbitInstance ℚ :=
  ⟨0, 0, 0, 0, 0, 0, 0⟩

/-! ## Helper lemmas -/

/-- Values of `to_range x r` lie in `[0, r)` whenever `r > 0`. -/
theorem toRange_mem (x r : R) (hr : 0 < r) : 0 ≤ toRange x r ∧ toRange x r < r := by
  have hrne : r ≠ 0 := ne_of_gt hr
  have hxr : r * (x / r) = x := by field_simp
  simp only [toRange, pyFmod, pyTrunc]
  by_cases hq : x / r < 0
  · rw [if_pos hq]
    have hle : x / r ≤ ((⌈x / r⌉ : ℤ) : R) := Int.le_ceil _
    have hlt : (((⌈x / r⌉ : ℤ) : R)) < x / r + 1 := Int.ceil_lt_add_one _
    by_cases hA : x - r * ((⌈x / r⌉ : ℤ) : R) < 0
    · rw [if_pos hA]
      constructor <;>
        nlinarith [mul_le_mul_of_nonneg_left hle hr.le,
          mul_lt_mul_of_pos_left hlt hr]
    · rw [if_neg hA]
      refine ⟨not_lt.mp hA, ?_⟩
      nlinarith [mul_le_mul_of_nonneg_left hle hr.le]
  · rw [if_neg hq]
    have hle : ((⌊x / r⌋ : ℤ) : R) ≤ x / r := Int.floor_le _
    have hlt : x / r < ((⌊x / r⌋ : ℤ) : R) + 1 := Int.lt_floor_add_one _
    have h0 : 0 ≤ x - r * ((⌊x / r⌋ : ℤ) : R) := by
      nlinarith [mul_le_mul_of_nonneg_left hle hr.le]
    rw [if_neg (not_lt.mpr h0)]
    exact ⟨h0, by nlinarith [mul_lt_mul_of_pos_left hlt hr]⟩

/-! ## Claims -/

/-- C4: for every time `t` (and every orbital-element set), the mean anomaly
stored by `OElements.instantiate(t)` equals
`radians(reduce_deg(mean_longitude.assemble(t) - perihelion.assemble(t)))`:
the subtraction and the wrap to `[0, 360)` happen in degrees, before the
conversion to radians. -/
theorem c4_mean_anomaly_degrees_before_radians (ops : RealOps R)
    (oe : OElements R) (t : R) :
    (OElements.instantiate ops oe t).mean_anomaly
      = radians ops (reduceDeg (MLTerms.assemble oe.ml t - Terms.assemble oe.ph t)) :=
  rfl

/-- C9: for every context and every light-time delay, Pluto's perturbation
calculator returns the record whose seven correction fields are all zero. -/
theorem c9_pluto_perturbations_zero (ops : RealOps R) (ctx : CelestialSphera R)
    (dt : R) :
    pertGetData ops .pluto ctx dt = PertRecord.empty
    ∧ (pertPluto ctx dt).dl = 0 ∧ (pertPluto ctx dt).dr = 0
    ∧ (pertPluto ctx dt).dml = 0 ∧ (pertPluto ctx dt).ds = 0
    ∧ (pertPluto ctx dt).dm = 0 ∧ (pertPluto ctx dt).da = 0
    ∧ (pertPluto ctx dt).dhl = 0 :=
  ⟨rfl, rfl, rfl, rfl, rfl, rfl, rfl, rfl⟩

/-- C8 (counterexample): the claim says all six auxiliary angles are reduced
to `[0, 2π)`; but `aux[0] = t/5 + 0.1` is stored unreduced, and at `t = 40`
(with the real `π`) its value `8.1` exceeds `2π`.  Only `pi` is read by the
auxiliary-angle computation, so the remaining `RealOps` slots are stubs. -/
theorem c8_counterexample :
    mkAuxSun (R := ℝ)
        ⟨fun _ => 0, fun _ => 0, fun _ => 0, fun _ => 0, fun _ _ => 0,
          fun _ => 0, fun _ => 0, Real.pi⟩ 40 0 = 8.1
    ∧ ¬ (mkAuxSun (R := ℝ)
        ⟨fun _ => 0, fun _ => 0, fun _ => 0, fun _ => 0, fun _ _ => 0,
          fun _ => 0, fun _ => 0, Real.pi⟩ 40 0 < Real.pi * 2) := by
  have hv : mkAuxSun (R := ℝ)
      ⟨fun _ => 0, fun _ => 0, fun _ => 0, fun _ => 0, fun _ _ => 0,
        fun _ => 0, fun _ => 0, Real.pi⟩ 40 0 = 8.1 := by
    show (40 : ℝ) / 5 + 0.1 = 8.1
    norm_num
  refine ⟨hv, ?_⟩
  rw [hv, not_lt]
  have hpi : Real.pi < 3.15 := Real.pi_lt_d2
  nlinarith

/-- C8 (amended): of the six auxiliary Sun-derived angles computed at
context construction, only `aux[1]`, `aux[2]`, `aux[3]` are `reduce_rad` of
linear functions of `t` and hence lie in `[0, pi*2)`; `aux[0] = t/5 + 0.1`
is stored unreduced, and `aux[4]`, `aux[5]` are linear combinations of the
reduced angles, not themselves reduced. -/
theorem c8_amended_aux_angles (ops : RealOps R) (t : R) (hpi : 0 < ops.pi) :
    (0 ≤ mkAuxSun ops t 1 ∧ mkAuxSun ops t 1 < ops.pi * 2)
    ∧ (0 ≤ mkAuxSun ops t 2 ∧ mkAuxSun ops t 2 < ops.pi * 2)
    ∧ (0 ≤ mkAuxSun ops t 3 ∧ mkAuxSun ops t 3 < ops.pi * 2)
    ∧ mkAuxSun ops t 1 = reduceRad ops (4.14473 + 5.29691e1 * t)
    ∧ mkAuxSun ops t 2 = reduceRad ops (4.641118 + 2.132991e1 * t)
    ∧ mkAuxSun ops t 3 = reduceRad ops (4.250177 + 7.478172 * t)
    ∧ mkAuxSun ops t 0 = t / 5 + 0.1
    ∧ mkAuxSun ops t 4 = 5 * mkAuxSun ops t 2 - 2 * mkAuxSun ops t 1
    ∧ mkAuxSun ops t 5
      = 2 * mkAuxSun ops t 1 - 6 * mkAuxSun ops t 2 + 3 * mkAuxSun ops t 3 := by
  have h2 : 0 < ops.pi * 2 := by linarith
  exact ⟨toRange_mem _ _ h2, toRange_mem _ _ h2, toRange_mem _ _ h2,
    rfl, rfl, rfl, rfl, rfl, rfl⟩

/-- Witness for `c8_amended_aux_angles` at `ℚ`, `pi = 4`, `t = 0`. -/
theorem c8_amended_aux_angles_witness :
    0 < qOpsPi4.pi
    ∧ (0 ≤ mkAuxSun qOpsPi4 (0 : ℚ) 1 ∧ mkAuxSun qOpsPi4 (0 : ℚ) 1 < qOpsPi4.pi * 2) := by
  have hpi : 0 < qOpsPi4.pi := by norm_num [qOpsPi4]
  exact ⟨hpi, (c8_amended_aux_angles qOpsPi4 0 hpi).1⟩

/-- C5: starting from a cache with no entry for `id`, the first
`get_orbit_instance` call runs the underlying `_instantiate_orbit` exactly
once and stores its value, and the second call for the same identifier
returns the value cached by the first, performs no instantiation, and leaves
the cache (and, the context being otherwise immutable, all other context
state) unchanged; entries for other identifiers are untouched. -/
theorem c5_orbit_instance_memoized (ops : RealOps R) (t : R) (st : Cache R)
    (id : PlanetId) (hmiss : st id = none) :
    (getOrbitInstanceC ops t st id).2.2 = 1
    ∧ (getOrbitInstanceC ops t (getOrbitInstanceC ops t st id).2.1 id).2.2 = 0
    ∧ (getOrbitInstanceC ops t (getOrbitInstanceC ops t st id).2.1 id).1
      = (getOrbitInstanceC ops t st id).1
    ∧ (getOrbitInstanceC ops t (getOrbitInstanceC ops t st id).2.1 id).2.1
      = (getOrbitInstanceC ops t st id).2.1
    ∧ (getOrbitInstanceC ops t st id).1 = instantiateOrbit ops t id
    ∧ ∀ j, j ≠ id → (getOrbitInstanceC ops t st id).2.1 j = st j := by
  have h1 : getOrbitInstanceC ops t st id
      = (instantiateOrbit ops t id,
          fun j => if j = id then some (instantiateOrbit ops t id) else st j, 1) := by
    simp [getOrbitInstanceC, hmiss]
  have h2 : getOrbitInstanceC ops t
      (fun j => if j = id then some (instantiateOrbit ops t id) else st j) id
      = (instantiateOrbit ops t id,
          fun j => if j = id then some (instantiateOrbit ops t id) else st j, 0) := by
    simp [getOrbitInstanceC]
  refine ⟨by rw [h1], ?_, ?_, ?_, by rw [h1], ?_⟩
  · rw [h1]; exact congrArg (fun p => p.2.2) h2
  · rw [h1]; exact congrArg (fun p => p.1) h2
  · rw [h1]; exact congrArg (fun p => p.2.1) h2
  · intro j hj
    rw [h1]
    simp [if_neg hj]

/-- Witness for `c5_orbit_instance_memoized`: the empty cache of a fresh
context and the Mercury identifier. -/
theorem c5_orbit_instance_memoized_witness :
    emptyCache (R := ℚ) PlanetId.mercury = none
    ∧ (getOrbitInstanceC qOps0 (0 : ℚ) emptyCache PlanetId.mercury).2.2 = 1 :=
  ⟨rfl, (c5_orbit_instance_memoized qOps0 0 emptyCache PlanetId.mercury rfl).1⟩

/-- C10: provided every entry already in the cache is the value of
`_instantiate_orbit` at the context's `t` (which is the only way entries are
ever created), the cached lookup `ctx.get_orbit_instance(p.id)` returns a
value equal to the direct `p.orbit.instantiate(ctx.t)` computed inside
`geocentric_position`; consequently replacing the direct instantiation with
the cached lookup leaves every output of `geocentric_position` unchanged,
and the lookup preserves the cache invariant. -/
theorem c10_direct_instantiation_equals_cached (ops : RealOps R)
    (id : PlanetId) (ctx : CelestialSphera R) (st : Cache R) (kf fuel : Nat)
    (hv : cacheValid ops ctx.t st) :
    (getOrbitInstanceC ops ctx.t st id).1
      = (forId ops id).orbit.instantiate ops ctx.t
    ∧ geocentricPositionViaCache ops kf fuel (forId ops id) ctx st
      = geocentricPosition ops kf fuel (forId ops id) ctx
    ∧ cacheValid ops ctx.t (getOrbitInstanceC ops ctx.t st id).2.1 := by
  have hval : (getOrbitInstanceC ops ctx.t st id).1 = instantiateOrbit ops ctx.t id := by
    cases hst : st id with
    | none => simp [getOrbitInstanceC, hst]
    | some oi => simp [getOrbitInstanceC, hst, hv id oi hst]
  refine ⟨hval, ?_, ?_⟩
  · unfold geocentricPositionViaCache geocentricPosition
    rw [show (forId ops id).id = id from rfl, hval]
    rfl
  · cases hst : st id with
    | none =>
      intro j oi hj
      simp only [getOrbitInstanceC, hst] at hj
      by_cases hji : j = id
      · subst hji
        simp at hj
        exact hj.symm
      · simp [if_neg hji] at hj
        exact hv j oi hj
    | some oi0 =>
      intro j oi hj
      simp only [getOrbitInstanceC, hst] at hj
      exact hv j oi hj

/-- Witness for `c10_direct_instantiation_equals_cached`: the empty cache
(vacuously valid) with the Mars identifier on the concrete context. -/
theorem c10_direct_instantiation_equals_cached_witness :
    cacheValid qOps0 qSphera0.t emptyCache
    ∧ (getOrbitInstanceC qOps0 qSphera0.t emptyCache PlanetId.mars).1
      = (forId qOps0 PlanetId.mars).orbit.instantiate qOps0 qSphera0.t :=
  ⟨fun _ _ h => Option.noConfusion h,
    (c10_direct_instantiation_equals_cached qOps0 PlanetId.mars qSphera0
      emptyCache 1 2 (fun _ _ h => Option.noConfusion h)).1⟩

/-- C3: the light-time correction of `_get_corrected_helio` makes exactly two
heliocentric passes.  Given that the first pass (delay `0`) produces frame
`h1` and the refinement pass with delay `h1.rho * 5.775518e-3` produces `h2`,
the recursion finishes with fuel `2` (and any larger fuel gives the same
answer — there is no iteration to convergence), fails to finish with fuel `1`
(one pass is not enough), and the returned frame carries the refinement
pass's angles but the FIRST pass's Earth-planet distance `h1.rho`.  The
hypotheses record that both Kepler solves converge and that the first-pass
distance is nonzero, which is how every actual run proceeds. -/
theorem c3_light_time_two_passes (ops : RealOps R) (kf : Nat) (pla : Planet R)
    (ctx : CelestialSphera R) (oi : OrbitInstance R) (lg rg : R)
    (h1 h2 : HelioRecord R)
    (e1 : calculateHeliocentric ops kf oi (ctx.getMeanAnomaly ops pla.id (some 0))
      rg lg (pla.pertCalc ctx 0) = some h1)
    (hrho : h1.rho ≠ 0)
    (e2 : calculateHeliocentric ops kf oi
      (ctx.getMeanAnomaly ops pla.id (some (h1.rho * 5.775518e-3)))
      rg lg (pla.pertCalc ctx (h1.rho * 5.775518e-3)) = some h2) :
    getCorrectedHelio ops kf pla ctx oi lg rg 2 0 0
      = some ⟨h2.ll, h2.rpd, h2.lpd, h2.spsi, h2.cpsi, h1.rho⟩
    ∧ getCorrectedHelio ops kf pla ctx oi lg rg 1 0 0 = none
    ∧ ∀ n : Nat, getCorrectedHelio ops kf pla ctx oi lg rg (n + 2) 0 0
      = some ⟨h2.ll, h2.rpd, h2.lpd, h2.spsi, h2.cpsi, h1.rho⟩ := by
  have hd : (h1.rho * 5.775518e-3 : R) ≠ 0 := mul_ne_zero hrho (by norm_num)
  have step2 : ∀ n : Nat, ∀ rho0 : R,
      getCorrectedHelio ops kf pla ctx oi lg rg (n + 1) (h1.rho * 5.775518e-3) rho0
        = some ⟨h2.ll, h2.rpd, h2.lpd, h2.spsi, h2.cpsi, rho0⟩ := by
    intro n rho0
    simp only [getCorrectedHelio, e2]
    rw [if_neg hd]
  have first : ∀ n : Nat, getCorrectedHelio ops kf pla ctx oi lg rg (n + 2) 0 0
      = some ⟨h2.ll, h2.rpd, h2.lpd, h2.spsi, h2.cpsi, h1.rho⟩ := by
    intro n
    have hstep : getCorrectedHelio ops kf pla ctx oi lg rg (n + 2) 0 0
        = getCorrectedHelio ops kf pla ctx oi lg rg (n + 1)
          (h1.rho * 5.775518e-3) h1.rho := by
      simp only [getCorrectedHelio, e1]
      simp only [if_true]
    rw [hstep, step2 n h1.rho]
  have one : getCorrectedHelio ops kf pla ctx oi lg rg 1 0 0 = none := by
    have hstep : getCorrectedHelio ops kf pla ctx oi lg rg 1 0 0
        = getCorrectedHelio ops kf pla ctx oi lg rg 0
          (h1.rho * 5.775518e-3) h1.rho := by
      simp only [getCorrectedHelio, e1]
      simp only [if_true]
    rw [hstep]
    rfl
  exact ⟨first 0, one, first⟩

/-- Under the stub library `qOps0` (zero trig, `sqrt ≡ 3`, `pi = 0`), the
heliocentric core on the all-zero orbit instance, zero Earth data and the
empty perturbation record produces the frame `⟨0, 0, 0, 0, 0, 3⟩` for every
mean anomaly. -/
theorem calcHelio_qOps0 (ma : ℚ) :
    calculateHeliocentric qOps0 1 zeroOi ma 0 0 PertRecord.empty
      = some ⟨0, 0, 0, 0, 0, 3⟩ := by
  simp [calculateHeliocentric, eccentricAnomalyFuel, eccentricAnomalyLoop,
    trueAnomaly, qOps0, zeroOi, PertRecord.empty, radians, reduceRad, toRange,
    pyFmod, pyTrunc, keplerDelta]
  rw [if_pos (by norm_num : (0 : ℚ) < 1e-7)]

/-- Witness for `c3_light_time_two_passes`: Pluto over `ℚ` with the stub
library `qOps0`, the all-zero orbit instance and zero Earth data; both
passes produce the frame `⟨0, 0, 0, 0, 0, 3⟩` and the recursion finishes
with fuel `2`. -/
theorem c3_light_time_two_passes_witness :
    calculateHeliocentric qOps0 1 zeroOi
        (qSphera0.getMeanAnomaly qOps0 (forId qOps0 PlanetId.pluto).id (some 0)) 0 0
        ((forId qOps0 PlanetId.pluto).pertCalc qSphera0 0)
      = some ⟨0, 0, 0, 0, 0, 3⟩
    ∧ ((3 : ℚ) ≠ 0)
    ∧ getCorrectedHelio qOps0 1 (forId qOps0 PlanetId.pluto) qSphera0 zeroOi 0 0 2 0 0
      = some ⟨0, 0, 0, 0, 0, 3⟩ := by
  refine ⟨calcHelio_qOps0 _, by norm_num, ?_⟩
  have h := c3_light_time_two_passes qOps0 1 (forId qOps0 PlanetId.pluto) qSphera0
    zeroOi 0 0 ⟨0, 0, 0, 0, 0, 3⟩ ⟨0, 0, 0, 0, 0, 3⟩
    (calcHelio_qOps0 _) (by norm_num) (calcHelio_qOps0 _)
  exact h.1

/-- Under `pathologicalOps` the Newton residual at `s = 1, m = 1` is `-1` at
every iterate, so the solver recursion never returns, whatever the fuel. -/
theorem pathological_loop_none :
    ∀ fuel ea, eccentricAnomalyLoop pathologicalOps 1 1 fuel ea = none := by
  intro fuel
  induction fuel with
  | zero => intro ea; rfl
  | succ n ih =>
    intro ea
    have hsin : pathologicalOps.sin ea = ea := rfl
    have hres : ea - 1 * pathologicalOps.sin ea - 1 = -1 := by rw [hsin]; ring
    rw [eccentricAnomalyLoop]
    simp only [hres]
    rw [if_neg (by norm_num [keplerDelta] : ¬ |(-1 : ℚ)| < keplerDelta)]
    exact ih _

/-- Whenever the solver recursion returns a value, that value satisfies the
convergence test: the only exit of `eccentric_anomaly` is `|dla| < _DELTA`. -/
theorem eccentricAnomalyLoop_some_converged (ops : RealOps R) (s m : R) :
    ∀ (k : Nat) (ea E : R), eccentricAnomalyLoop ops s m k ea = some E →
      |E - s * ops.sin E - m| < keplerDelta := by
  intro k
  induction k with
  | zero => intro ea E h; exact absurd h (by simp [eccentricAnomalyLoop])
  | succ n ih =>
    intro ea E h
    rw [eccentricAnomalyLoop] at h
    by_cases hc : |ea - s * ops.sin ea - m| < keplerDelta
    · rw [if_pos hc] at h
      cases h
      exact hc
    · rw [if_neg hc] at h
      exact ih _ E h

/-- C6 (amended): `eccentric_anomaly` imposes no iteration bound and signals
no `NonConvergence` failure.  Its only exit is the convergence test — any
value it returns has residual below `_DELTA` — and on an input whose Newton
iteration never meets the tolerance (here `s = 1, m = 1` under
`pathologicalOps`) the recursion simply never finishes: for every fuel bound
the run is still going, and no error value exists to be returned. -/
theorem c6_no_iteration_cap (ops : RealOps R) (s m : R) (k : Nat) (E : R)
    (hret : eccentricAnomalyFuel ops s m k = some E) :
    |E - s * ops.sin E - m| < keplerDelta
    ∧ ∀ fuel : Nat, eccentricAnomalyFuel pathologicalOps 1 1 fuel = none :=
  ⟨eccentricAnomalyLoop_some_converged ops s m k m E hret,
    fun fuel => pathological_loop_none fuel 1⟩

/-- Witness for `c6_no_iteration_cap`: under `qOps0` at `s = m = 0` the
solver returns the seed `0` after one step, and its residual meets the
tolerance. -/
theorem c6_no_iteration_cap_witness :
    eccentricAnomalyFuel qOps0 (0 : ℚ) 0 1 = some 0
    ∧ |(0 : ℚ) - 0 * qOps0.sin 0 - 0| < keplerDelta := by
  have hret : eccentricAnomalyFuel qOps0 (0 : ℚ) 0 1 = some 0 := by
    simp [eccentricAnomalyFuel, eccentricAnomalyLoop, qOps0]
    norm_num [keplerDelta]
  exact ⟨hret, (c6_no_iteration_cap qOps0 0 0 1 0 hret).1⟩

/-- C6 (counterexample): run for `100` Newton steps — well past any
50-iteration ceiling — the solver at `s = 1, m = 1` under `pathologicalOps`
has neither produced a value nor signalled any failure: the source recursion
is simply still running.  No iteration bound or `NonConvergence` signal
exists in the code. -/
theorem c6_counterexample_no_bound :
    eccentricAnomalyFuel pathologicalOps 1 1 100 = none :=
  pathological_loop_none 100 1

/-- C7 (amended): for eccentricity `s > 1`, `true_anomaly` fails immediately
with the math domain error (negative `sqrt` argument) for every angle
argument, while for `s = 1` it fails with a zero-division error, not a
domain error; and `eccentric_anomaly` performs no eccentricity check at all:
whenever the seed `m` already satisfies the convergence test it returns the
value `m`, regardless of how large `s` is. -/
theorem c7_eccentricity_domain_errors (ops : RealOps R) (s ea m : R)
    (hs : 1 ≤ s) (hconv : |m - s * ops.sin m - m| < keplerDelta) :
    trueAnomalyChecked ops s ea
      = .error (if s = 1 then PyErr.zeroDivision else PyErr.domainError)
    ∧ eccentricAnomalyFuel ops s m 1 = some m := by
  constructor
  · by_cases h1 : s = 1
    · subst h1
      rw [if_pos rfl]
      unfold trueAnomalyChecked
      rw [if_pos (by ring)]
    · have hlt : 1 < s := lt_of_le_of_ne hs (fun h => h1 h.symm)
      have hden : 1 - s < 0 := by linarith
      have hnum : 0 < 1 + s := by linarith
      rw [if_neg h1]
      unfold trueAnomalyChecked
      rw [if_neg (by linarith : ¬ (1 - s = 0))]
      rw [if_pos (div_neg_of_pos_of_neg hnum hden)]
  · unfold eccentricAnomalyFuel eccentricAnomalyLoop
    rw [if_pos hconv]

/-- Witness for `c7_eccentricity_domain_errors`: `s = 2`, `ea = m = 0` over
`ℚ` with the stub library. -/
theorem c7_eccentricity_domain_errors_witness :
    (1 : ℚ) ≤ 2
    ∧ |(0 : ℚ) - 2 * qOps0.sin 0 - 0| < keplerDelta
    ∧ trueAnomalyChecked qOps0 2 0 = .error PyErr.domainError
    ∧ eccentricAnomalyFuel qOps0 (2 : ℚ) 0 1 = some 0 := by
  have hconv : |(0 : ℚ) - 2 * qOps0.sin 0 - 0| < keplerDelta := by
    norm_num [qOps0, keplerDelta]
  have h := c7_eccentricity_domain_errors qOps0 2 0 0 (by norm_num) hconv
  rw [if_neg (by norm_num : ¬ (2 : ℚ) = 1)] at h
  exact ⟨by norm_num, hconv, h.1, h.2⟩

/-- C7 (counterexample): with the genuine real-number `sin`, the Kepler
solver at eccentricity `e = 1 ≥ 1` and mean anomaly `M = 0` raises nothing
and returns the value `0` at once (the residual `0 - 1·sin 0 - 0` already
meets the tolerance), contradicting the claim that it fails immediately
with a domain error and returns no value.  Only the `sin`/`cos` slots of
the record are read by the solver; the rest are stubs. -/
theorem c7_counterexample_kepler_returns :
    eccentricAnomalyFuel
        (⟨Real.sin, Real.cos, fun _ => 0, fun _ => 0, fun _ _ => 0,
          fun _ => 0, fun _ => 0, Real.pi⟩ : RealOps ℝ) 1 0 1
      = some 0 := by
  unfold eccentricAnomalyFuel eccentricAnomalyLoop
  rw [if_pos]
  simp [keplerDelta]
  norm_num
